import Mathlib

/-!
# The agent's connect server (`apps/agent/pkg/connect/service.go`)

A shallow embedding of the package `connect`: the `Server` record, `New`,
`AddService`, `Liveness` and `Listen`, over a small model of the parts of
`net/http`, `sync` and of Go channels that the package calls.

Conventions of the embedding

* A method call is a function from the server value before the call to a
  record holding the server value after it, the trace of what the calling
  goroutine did, the trace of the goroutine it spawned, and the way the call
  ended (returned, panicked, or parked at a blocking operation).
* `sync.Mutex` is the flag `locked`; `Lock` on a held mutex parks the caller.
* `chan struct{}` is the pair (closed, waiting senders); a receive on an open
  channel without a sender parks the caller.
* The logger, the network and `http.Server` are collaborators: what the
  package asks of them is recorded as `Event`s, and what they answer (the error
  of binding an address, the error of `Shutdown`) is read from `Env`.
-/

namespace Connect

/-! ## `net/http`: requests, response writers, handlers -/

/-- The parts of `*http.Request` that routing and the handlers here look at. -/
structure Request where
  Method : String
  Host : String
  Path : String
  Body : String

/-- An `http.ResponseWriter` as a recorder: the method of the request it
answers, the status line once it is written, the body bytes sent so far, and
the error the transport gives to a `Write` (`none` while the connection takes
the bytes). -/
structure ResponseWriter where
  reqMethod : String
  status : Option Nat
  body : String
  writeErr : Option String
deriving DecidableEq, Repr

/-- The writer the server hands to a handler for a new request with the given
method. -/
def ResponseWriter.fresh (method : String) (writeErr : Option String) : ResponseWriter :=
  { reqMethod := method, status := none, body := "", writeErr := writeErr }

/-- Constant `http.StatusOK`. -/
def StatusOK : Nat := 200

/-- Constant `http.StatusNotFound`. -/
def StatusNotFound : Nat := 404

/-- Error `http.ErrBodyNotAllowed`. -/
def ErrBodyNotAllowed : String :=
  "http: request method or response status code does not allow body"

/-- Function `bodyAllowedForStatus`: no body with a status 1xx, 204 or 304. -/
def bodyAllowedForStatus (status : Nat) : Bool :=
  !((decide (100 ≤ status) && decide (status ≤ 199)) || status == 204 || status == 304)

/-- Method `WriteHeader` with a final status code (the handlers here pass 200
and 404): the first call fixes the status, later calls are ignored by
`net/http`. -/
def ResponseWriter.WriteHeader (w : ResponseWriter) (code : Nat) : ResponseWriter :=
  match w.status with
  | none => { w with status := some code }
  | some _ => w

/-- Method `Write`: writes the header with `StatusOK` when none was written;
an empty write ends there; a status that allows no body gives
`ErrBodyNotAllowed`; the answer to a `HEAD` request has no body, so the bytes
are dropped and the write reports success; otherwise the bytes go to the
transport, whose error is returned. -/
def ResponseWriter.Write (w : ResponseWriter) (b : String) : ResponseWriter × Option String :=
  let w1 := w.WriteHeader StatusOK
  if b = "" then (w1, none)
  else if (w1.status.map bodyAllowedForStatus) = some false then (w1, some ErrBodyNotAllowed)
  else if w1.reqMethod = "HEAD" then (w1, none)
  else match w1.writeErr with
    | none => ({ w1 with body := w1.body ++ b }, none)
    | some e => (w1, some e)

/-- What the package asks of its collaborators, in the order it asks. -/
inductive Event where
  | lock
  | unlock
  | logInfo (msg : String) (addr : Option String)
  | logError (msg : String) (err : String)
  | newHTTPServer (addr : String)
  | go
  | listenAndServe (addr : String) (err : Option String)
  | recvShutdownC
  | srvShutdown (addr : String)
deriving DecidableEq, Repr

/-- An `http.Handler`: `ServeHTTP(w, r)` as a function giving the writer after
the call and what the handler logged. -/
structure Handler where
  ServeHTTP : ResponseWriter → Request → ResponseWriter × List Event

/-- Function `http.NotFound`, the handler a mux uses when no pattern matches. -/
def NotFoundHandler : Handler :=
  { ServeHTTP := fun w _ => (((w.WriteHeader StatusNotFound).Write "404 page not found\n").1, []) }

/-! ## `net/http.ServeMux` -/

/-- A `muxEntry`: a pattern and its handler. -/
structure muxEntry where
  h : Handler
  pattern : String

/-- The `ServeMux` record: `m` the map from pattern to entry (as an
association list, newest first), `es` the entries whose pattern ends in `/`
from longest to shortest, `hosts` whether some pattern names a host. -/
structure ServeMux where
  m : List (String × muxEntry)
  es : List muxEntry
  hosts : Bool

/-- Function `http.NewServeMux`. -/
def NewServeMux : ServeMux := { m := [], es := [], hosts := false }

/-- Map lookup `mux.m[pattern]`. -/
def ServeMux.find (mux : ServeMux) (pattern : String) : Option muxEntry :=
  (mux.m.find? (fun kv => kv.1 == pattern)).map (fun kv => kv.2)

/-- Function `appendSorted`: insert before the first entry whose pattern is
strictly shorter. -/
def appendSorted : List muxEntry → muxEntry → List muxEntry
  | [], e => [e]
  | x :: xs, e =>
    if x.pattern.length < e.pattern.length then e :: x :: xs
    else x :: appendSorted xs e

/-- Method `ServeMux.Handle`: panics (`Except.error`) on an empty pattern, a
nil handler, or a pattern that is already registered. -/
def ServeMux.Handle (mux : ServeMux) (pattern : String) (handler : Option Handler) :
    Except String ServeMux :=
  if pattern = "" then .error "http: invalid pattern"
  else match handler with
    | none => .error "http: nil handler"
    | some h =>
      if (mux.find pattern).isSome then .error ("http: multiple registrations for " ++ pattern)
      else
        let e : muxEntry := { h := h, pattern := pattern }
        .ok { m := (pattern, e) :: mux.m
              es := if pattern.data.getLast? = some '/' then appendSorted mux.es e else mux.es
              hosts := if pattern.data.head? = some '/' then mux.hosts else true }

/-- Method `ServeMux.HandleFunc`: `Handle` with the function wrapped as a
handler. -/
def ServeMux.HandleFunc (mux : ServeMux) (pattern : String)
    (f : ResponseWriter → Request → ResponseWriter × List Event) : Except String ServeMux :=
  mux.Handle pattern (some { ServeHTTP := f })

/-- Method `ServeMux.match`: an exact match first, then the longest pattern
ending in `/` that is a prefix of the path. -/
def ServeMux.match_ (mux : ServeMux) (path : String) : Option muxEntry :=
  match mux.find path with
  | some v => some v
  | none => mux.es.find? (fun e => e.pattern.data.isPrefixOf path.data)

/-- Method `ServeMux.handler`: host-specific patterns take precedence over
generic ones; `NotFoundHandler` when nothing matches. -/
def ServeMux.handler (mux : ServeMux) (host path : String) : Handler :=
  let byHost := if mux.hosts then mux.match_ (host ++ path) else none
  match byHost with
  | some e => e.h
  | none =>
    match mux.match_ path with
    | some e => e.h
    | none => NotFoundHandler

/-- Method `ServeMux.ServeHTTP` for a request whose URL path is already in
canonical form (the mux answers other paths with a redirect to the canonical
one): dispatch to the handler of the matching pattern. -/
def ServeMux.ServeHTTP (mux : ServeMux) (w : ResponseWriter) (r : Request) :
    ResponseWriter × List Event :=
  (mux.handler r.Host r.Path).ServeHTTP w r

/-- A mux used as an `http.Handler`. -/
def ServeMux.toHandler (mux : ServeMux) : Handler := { ServeHTTP := mux.ServeHTTP }

/-- Function `h2c.NewHandler(h, &http2.Server{})`: the wrapper decodes
HTTP/1.1 and cleartext HTTP/2 alike and hands every request to `h`. -/
def h2cNewHandler (h : Handler) : Handler := { ServeHTTP := fun w r => h.ServeHTTP w r }

/-- The `http.Server` literal built by `Listen`. -/
structure HTTPServer where
  Addr : String
  Handler : Handler

/-- The server's answer to one request: it makes the response writer for the
request and calls `srv.Handler.ServeHTTP`; the result holds the response as
the writer recorded it and what the handler logged. -/
def HTTPServer.serve (srv : HTTPServer) (r : Request) (writeErr : Option String) :
    ResponseWriter × List Event :=
  srv.Handler.ServeHTTP (ResponseWriter.fresh r.Method writeErr) r

/-! ## `sync.Mutex` and the shutdown channel -/

/-- A `chan struct{}` without buffer: whether it was closed, and how many
goroutines wait to send on it. -/
structure Chan where
  closed : Bool
  senders : Nat
deriving DecidableEq, Repr

/-- Expression `make(chan struct{})`. -/
def Chan.make : Chan := { closed := false, senders := 0 }

/-- A receive `<-c`: takes the value of a waiting sender, or the zero value of
a closed channel; `none` when the receiver has to park. -/
def Chan.recv (c : Chan) : Option Chan :=
  match c.senders with
  | n + 1 => some { c with senders := n }
  | 0 => if c.closed then some c else none

/-- Builtin `close(c)`, done by nothing in the package: it is what a party
holding the channel would do to signal shutdown. -/
def Chan.close (c : Chan) : Chan := { c with closed := true }

/-! ## The package `connect` -/

/-- A `logging.Logger`, a collaborator known by name only. -/
structure Logger where
  name : String
deriving DecidableEq, Repr

/-- Interface `Service`: `CreateHandler` yields a pattern and a handler (which
may be nil). -/
structure Service where
  CreateHandler : String × Option Handler

/-- Struct `Server`; the embedded `sync.Mutex` is the flag `locked`. -/
structure Server where
  locked : Bool
  logger : Logger
  mux : ServeMux
  shutdownC : Chan
  isShuttingDown : Bool
  isListening : Bool

/-- Struct `Config`. -/
structure Config where
  Logger : Logger

/-- Answers of the collaborators: the error of binding an address (`none`
when the socket is bound) and the error `srv.Shutdown` returns. -/
structure Env where
  listenErr : String → Option String
  shutdownErr : Option String

/-- Error `http.ErrServerClosed`, returned by `ListenAndServe` after
`Shutdown`. -/
def ErrServerClosed : String := "http: Server closed"

/-- How a call ended. -/
inductive Outcome where
  | returned (err : Option String)
  | panicked (msg : String)
  | lockWait
  | recvWait
deriving DecidableEq, Repr

/-- The record of one call: the server after it, how it ended, what the
calling goroutine did (`events`), what the goroutine it spawned did
(`serving`), and the `http.Server` it built, if any. -/
structure Call where
  server : Server
  outcome : Outcome
  events : List Event
  serving : List Event
  srv : Option HTTPServer

/-- Method `s.Lock()`: `none` when the mutex is held and the caller parks. -/
def Server.Lock (s : Server) : Option Server :=
  if s.locked then none else some { s with locked := true }

/-- Method `s.Unlock()`. -/
def Server.Unlock (s : Server) : Server := { s with locked := false }

/-- Function `New`: returns the server and a nil error. -/
def New (cfg : Config) : Server × Option String :=
  ({ locked := false
     logger := cfg.Logger
     isListening := false
     isShuttingDown := false
     mux := NewServeMux
     shutdownC := Chan.make }, none)

/-- Method `AddService`: lock, deferred unlock, `s.mux.Handle(svc.CreateHandler())`.
A panic of `Handle` runs the deferred unlock and propagates. -/
def Server.AddService (s : Server) (svc : Service) : Call :=
  match s.Lock with
  | none => { server := s, outcome := .lockWait, events := [], serving := [], srv := none }
  | some s1 =>
    match s1.mux.Handle svc.CreateHandler.1 svc.CreateHandler.2 with
    | .error msg =>
      { server := s1.Unlock, outcome := .panicked msg, events := [.lock, .unlock],
        serving := [], srv := none }
    | .ok mux =>
      { server := ({ s1 with mux := mux }).Unlock, outcome := .returned none,
        events := [.lock, .unlock], serving := [], srv := none }

/-- Message `ratelimitv1.LivenessRequest`. -/
structure LivenessRequest where
deriving DecidableEq, Repr

/-- Message `ratelimitv1.LivenessResponse`. -/
structure LivenessResponse where
  Status : String
deriving DecidableEq, Repr

/-- A `context.Context`, not looked at by the package. -/
structure Context where
  name : String
deriving DecidableEq, Repr

/-- Method `Liveness`: the response and a nil error. -/
def Server.Liveness (_s : Server) (_ctx : Context) (_req : LivenessRequest) :
    LivenessResponse × Option String :=
  ({ Status := "serving" }, none)

/-- The function literal `Listen` registers under `/liveness`. -/
def livenessFunc (w : ResponseWriter) (_r : Request) : ResponseWriter × List Event :=
  let w1 := w.WriteHeader StatusOK
  match w1.Write "OK" with
  | (w2, some e) => (w2, [.logError "failed to write response" e])
  | (w2, none) => (w2, [])

/-- The goroutine `Listen` starts: `srv.ListenAndServe()`, which returns at
once when the address cannot be bound, and the error log that follows. -/
def serveGoroutine (env : Env) (addr : String) : List Event :=
  match env.listenErr addr with
  | some e => [.listenAndServe addr (some e), .logError "listen and serve failed" e]
  | none => [.listenAndServe addr none]

/-- Lines 87 to 89 of `Listen`: the receive on `shutdownC`, the log line and
`srv.Shutdown`. A serving `ListenAndServe` returns `ErrServerClosed` once
`Shutdown` is called, which its goroutine logs. -/
def Server.awaitShutdown (env : Env) (s : Server) (srv : HTTPServer) : Call :=
  match s.shutdownC.recv with
  | none => { server := s, outcome := .recvWait, events := [], serving := [], srv := some srv }
  | some c =>
    { server := { s with shutdownC := c }
      outcome := .returned env.shutdownErr
      events := [.recvShutdownC, .logInfo "shutting down" none, .srvShutdown srv.Addr]
      serving := match env.listenErr srv.Addr with
        | none => [.logError "listen and serve failed" ErrServerClosed]
        | some _ => []
      srv := some srv }

/-- Method `Listen`. -/
def Server.Listen (env : Env) (s : Server) (addr : String) : Call :=
  match s.Lock with
  | none => { server := s, outcome := .lockWait, events := [], serving := [], srv := none }
  | some s1 =>
    if s1.isListening then
      { server := s1.Unlock, outcome := .returned none,
        events := [.lock, .logInfo "already listening" none, .unlock], serving := [], srv := none }
    else
      let s2 := { s1 with isListening := true }
      let s3 := s2.Unlock
      match NewServeMux.HandleFunc "/liveness" livenessFunc with
      | .error msg =>
        { server := s3, outcome := .panicked msg, events := [.lock, .unlock],
          serving := [], srv := none }
      | .ok mux =>
        let srv : HTTPServer := { Addr := addr, Handler := h2cNewHandler mux.toHandler }
        let rest := s3.awaitShutdown env srv
        { server := rest.server
          outcome := rest.outcome
          events := [.lock, .unlock, .newHTTPServer addr, .logInfo "listening" (some addr), .go]
            ++ rest.events
          serving := serveGoroutine env addr ++ rest.serving
          srv := some srv }

/-! ## Sequences of calls on one server -/

/-- One call on the server, made by some goroutine. -/
inductive Op where
  | addService (svc : Service)
  | liveness (ctx : Context) (req : LivenessRequest)
  | listen (addr : String)

/-- Run one call to its end or to the point where its goroutine parks. -/
def Server.call (env : Env) (s : Server) : Op → Call
  | .addService svc => s.AddService svc
  | .liveness ctx req =>
    { server := s, outcome := .returned (s.Liveness ctx req).2, events := [], serving := [],
      srv := none }
  | .listen addr => s.Listen env addr

/-- The calls of `ops` one after the other, none interleaved with another;
the result holds the final server and the traces of all calls, in order. -/
def Server.run (env : Env) (s : Server) : List Op → Server × List Event × List Event
  | [] => (s, [], [])
  | op :: ops =>
    let c := s.call env op
    let r := Server.run env c.server ops
    (r.1, c.events ++ r.2.1, c.serving ++ r.2.2)

/-- The address of the first `Listen` among `ops`. -/
def firstListen : List Op → Option String
  | [] => none
  | .listen addr :: _ => some addr
  | _ :: ops => firstListen ops

/-- The calls `AddService svc` for each `svc` of the list, in order; a call
that panics leaves the registry as it was. -/
def Server.addServices (s : Server) : List Service → Server
  | [] => s
  | svc :: svcs => Server.addServices (s.AddService svc).server svcs

/-- Walk the trace of one goroutine, `held` telling whether it holds the
server's mutex: true when it locks only while not holding, unlocks only while
holding, holds nothing when it receives on `shutdownC` or calls
`srv.Shutdown`, and holds nothing where the trace ends (the return, or the
place where the goroutine parks). -/
def lockDiscipline : Bool → List Event → Bool
  | held, [] => !held
  | held, .lock :: es => !held && lockDiscipline true es
  | held, .unlock :: es => held && lockDiscipline false es
  | held, .recvShutdownC :: es => !held && lockDiscipline held es
  | held, .srvShutdown _ :: es => !held && lockDiscipline held es
  | held, _ :: es => lockDiscipline held es

/-- Whether an event is a call of `ListenAndServe`, the one place where a
socket is bound. -/
def Event.isBind : Event → Bool
  | .listenAndServe _ _ => true
  | _ => false

/-- Whether an event is the construction of an `http.Server`. -/
def Event.isNewServer : Event → Bool
  | .newHTTPServer _ => true
  | _ => false

/-- Whether an event belongs to the shutdown path of `Listen`: the completed
receive on `shutdownC` or the call of `srv.Shutdown`. -/
def Event.isShutdownPath : Event → Bool
  | .recvShutdownC => true
  | .srvShutdown _ => true
  | _ => false

/-- The shutdown signal delivered by closing `shutdownC`. Nothing in the
package does this; it is the act of whoever else holds the channel. -/
def Server.signalShutdown (s : Server) : Server := { s with shutdownC := s.shutdownC.close }

/-! ## Fixtures for concrete runs -/

/-- A handler that writes the request body back. -/
def echoFunc (w : ResponseWriter) (r : Request) : ResponseWriter × List Event :=
  ((w.Write r.Body).1, [])

/-- A service registering `echoFunc` under `/v1/echo`. -/
def echoService : Service := { CreateHandler := ("/v1/echo", some { ServeHTTP := echoFunc }) }

/-- A service registering `echoFunc` under the probe's own path. -/
def shadowService : Service := { CreateHandler := ("/liveness", some { ServeHTTP := echoFunc }) }

/-- A configuration with a named logger. -/
def testConfig : Config := { Logger := { name := "test" } }

/-- Collaborators that bind every address and shut down cleanly. -/
def envOK : Env := { listenErr := fun _ => none, shutdownErr := none }

/-- Collaborators for which no address can be bound. -/
def envInUse : Env :=
  { listenErr := fun _ => some "bind: address already in use", shutdownErr := none }

/-- The request of the echo scenario. -/
def echoRequest : Request :=
  { Method := "POST", Host := "127.0.0.1", Path := "/v1/echo", Body := "hello" }

/-- A probe request. -/
def probeRequest : Request :=
  { Method := "GET", Host := "127.0.0.1", Path := "/liveness", Body := "" }

/-- A probe request with the method `HEAD`. -/
def headProbeRequest : Request :=
  { Method := "HEAD", Host := "127.0.0.1", Path := "/liveness", Body := "" }

/-- A server on which one `Listen` call is parked. -/
def listeningServer : Server := ((New testConfig).1.Listen envOK "127.0.0.1:0").server

/-- The server after `New` and the registration of the echo service. -/
def echoServer : Server := ((New testConfig).1.AddService echoService).server

/-- The `http.Server` of the parked `Listen` call of `listeningServer`. -/
def listeningSrv : HTTPServer :=
  { Addr := "127.0.0.1:0"
    Handler := h2cNewHandler
      (ServeMux.toHandler
        { m := [("/liveness", { h := { ServeHTTP := livenessFunc }, pattern := "/liveness" })]
          es := []
          hosts := false }) }

/-! ## Basic facts -/

theorem Lock_free (s : Server) (h : s.locked = false) :
    s.Lock = some { s with locked := true } := by
  simp [Server.Lock, h]

theorem Unlock_Lock (s : Server) (h : s.locked = false) :
    ({ s with locked := true } : Server).Unlock = s := by
  cases s
  simp_all [Server.Unlock]

theorem HandleFunc_liveness :
    ∃ mux, NewServeMux.HandleFunc "/liveness" livenessFunc = .ok mux ∧
      mux.m = [("/liveness", { h := { ServeHTTP := livenessFunc }, pattern := "/liveness" })] ∧
      mux.es = [] ∧ mux.hosts = false :=
  ⟨_, rfl, rfl, rfl, rfl⟩

theorem AddService_free (s : Server) (svc : Service) (h : s.locked = false) :
    (s.AddService svc).server.locked = false ∧
    (s.AddService svc).server.isListening = s.isListening ∧
    (s.AddService svc).server.isShuttingDown = s.isShuttingDown ∧
    (s.AddService svc).server.shutdownC = s.shutdownC ∧
    (s.AddService svc).serving = [] ∧
    (s.AddService svc).srv = none := by
  unfold Server.AddService
  rw [Lock_free s h]
  dsimp only
  split <;> simp [Server.Unlock]

theorem addServices_free (svcs : List Service) (s : Server) (h : s.locked = false) :
    (s.addServices svcs).locked = false ∧
    (s.addServices svcs).isListening = s.isListening ∧
    (s.addServices svcs).isShuttingDown = s.isShuttingDown ∧
    (s.addServices svcs).shutdownC = s.shutdownC := by
  induction svcs generalizing s with
  | nil => simp [Server.addServices, h]
  | cons svc svcs ih =>
    obtain ⟨h1, h2, h3, h4, -, -⟩ := AddService_free s svc h
    obtain ⟨i1, i2, i3, i4⟩ := ih (s.AddService svc).server h1
    simp only [Server.addServices]
    exact ⟨i1, i2.trans h2, i3.trans h3, i4.trans h4⟩

/-- The `http.Server` a `Listen` call builds when it passes the guard: its
address is the argument and its handler wraps a mux that holds the probe
only. -/
theorem Listen_srv (env : Env) (s : Server) (addr : String)
    (hm : s.locked = false) (hl : s.isListening = false) :
    (s.Listen env addr).srv = some
      { Addr := addr
        Handler := h2cNewHandler
          (ServeMux.toHandler
            { m := [("/liveness", { h := { ServeHTTP := livenessFunc }, pattern := "/liveness" })]
              es := []
              hosts := false }) } := by
  unfold Server.Listen
  rw [Lock_free s hm]
  simp only [hl]
  rfl

/-- A `Listen` call that passes the guard, in terms of its last three lines. -/
theorem Listen_idle (env : Env) (s : Server) (addr : String)
    (hm : s.locked = false) (hl : s.isListening = false) :
    ∃ srv : HTTPServer, srv.Addr = addr ∧
      (s.Listen env addr).server = (({ s with isListening := true } : Server).awaitShutdown env srv).server ∧
      (s.Listen env addr).outcome = (({ s with isListening := true } : Server).awaitShutdown env srv).outcome ∧
      (s.Listen env addr).events =
        [.lock, .unlock, .newHTTPServer addr, .logInfo "listening" (some addr), .go]
          ++ (({ s with isListening := true } : Server).awaitShutdown env srv).events ∧
      (s.Listen env addr).serving = serveGoroutine env addr
          ++ (({ s with isListening := true } : Server).awaitShutdown env srv).serving := by
  refine ⟨{ Addr := addr, Handler := h2cNewHandler (ServeMux.toHandler
    { m := [("/liveness", { h := { ServeHTTP := livenessFunc }, pattern := "/liveness" })]
      es := [], hosts := false }) }, rfl, ?_, ?_, ?_, ?_⟩ <;>
  · unfold Server.Listen
    rw [Lock_free s hm]
    simp only [hl]
    have hu : ({ s with locked := true, isListening := true } : Server).Unlock
        = { s with isListening := true } := by
      cases s
      simp_all [Server.Unlock]
    rw [← hu]
    rfl

theorem awaitShutdown_parked (env : Env) (s : Server) (srv : HTTPServer)
    (h : s.shutdownC.recv = none) :
    s.awaitShutdown env srv =
      { server := s, outcome := .recvWait, events := [], serving := [], srv := some srv } := by
  simp [Server.awaitShutdown, h]

theorem awaitShutdown_signalled (env : Env) (s : Server) (srv : HTTPServer) (c : Chan)
    (h : s.shutdownC.recv = some c) :
    s.awaitShutdown env srv =
      { server := { s with shutdownC := c }
        outcome := .returned env.shutdownErr
        events := [.recvShutdownC, .logInfo "shutting down" none, .srvShutdown srv.Addr]
        serving := match env.listenErr srv.Addr with
          | none => [.logError "listen and serve failed" ErrServerClosed]
          | some _ => []
        srv := some srv } := by
  simp [Server.awaitShutdown, h]

theorem make_recv : Chan.make.recv = none := rfl

/-- What one call does to a server whose mutex is free and whose shutdown
channel is as `New` made it. -/
theorem call_inv (env : Env) (s : Server) (op : Op)
    (hm : s.locked = false) (hc : s.shutdownC = Chan.make) :
    (s.call env op).server.locked = false ∧
    (s.call env op).server.shutdownC = Chan.make ∧
    (s.call env op).server.isShuttingDown = s.isShuttingDown ∧
    (s.call env op).server.isListening = (s.isListening || (firstListen [op]).isSome) ∧
    (s.call env op).serving =
      (if s.isListening then []
       else match firstListen [op] with
         | none => []
         | some a => serveGoroutine env a) ∧
    ((s.call env op).events.filter Event.isNewServer).length =
      (if s.isListening then 0 else if (firstListen [op]).isSome then 1 else 0) ∧
    (s.call env op).events.filter Event.isShutdownPath = [] := by
  cases op with
  | addService svc =>
    obtain ⟨h1, h2, h3, h4, h5, -⟩ := AddService_free s svc hm
    have he : (s.AddService svc).events = [.lock, .unlock] := by
      unfold Server.AddService
      rw [Lock_free s hm]
      dsimp only
      split <;> rfl
    simp only [Server.call, firstListen, h1, h2, h3, h4, h5, he, hc]
    simp [Event.isNewServer, Event.isShutdownPath]
  | liveness ctx req =>
    simp [Server.call, firstListen, hm, hc]
  | listen addr =>
    cases hl : s.isListening with
    | true =>
      have h : s.Listen env addr =
          { server := s, outcome := .returned none,
            events := [.lock, .logInfo "already listening" none, .unlock],
            serving := [], srv := none } := by
        unfold Server.Listen
        rw [Lock_free s hm]
        cases s
        simp_all [Server.Unlock]
      simp [Server.call, firstListen, h, hm, hc, hl, Event.isNewServer, Event.isShutdownPath]
    | false =>
      obtain ⟨srv, -, h1, -, h3, h4⟩ := Listen_idle env s addr hm hl
      have hp := awaitShutdown_parked env { s with isListening := true } srv
        (by simp [hc, make_recv])
      rw [hp] at h1 h3 h4
      simp [Server.call, firstListen, h1, h3, h4, hm, hc, Event.isNewServer,
        Event.isShutdownPath]

/-- What a sequence of calls does to such a server. -/
theorem run_inv (env : Env) (ops : List Op) (s : Server)
    (hm : s.locked = false) (hc : s.shutdownC = Chan.make) :
    (s.run env ops).1.locked = false ∧
    (s.run env ops).1.shutdownC = Chan.make ∧
    (s.run env ops).1.isShuttingDown = s.isShuttingDown ∧
    (s.run env ops).1.isListening = (s.isListening || (firstListen ops).isSome) ∧
    (s.run env ops).2.2 =
      (if s.isListening then []
       else match firstListen ops with
         | none => []
         | some a => serveGoroutine env a) ∧
    ((s.run env ops).2.1.filter Event.isNewServer).length =
      (if s.isListening then 0 else if (firstListen ops).isSome then 1 else 0) ∧
    (s.run env ops).2.1.filter Event.isShutdownPath = [] := by
  induction ops generalizing s with
  | nil => simp [Server.run, firstListen, hm, hc]
  | cons op ops ih =>
    obtain ⟨c1, c2, c3, c4, c5, c6, c7⟩ := call_inv env s op hm hc
    obtain ⟨i1, i2, i3, i4, i5, i6, i7⟩ := ih (s.call env op).server c1 c2
    simp only [Server.run]
    refine ⟨i1, i2, i3.trans c3, ?_, ?_, ?_, ?_⟩
    · rw [i4, c4]
      cases op <;> simp [firstListen]
    · rw [i5, c5, c4]
      cases op <;> cases s.isListening <;> simp [firstListen]
    · rw [List.filter_append, List.length_append, i6, c6, c4]
      cases op <;> cases s.isListening <;> simp [firstListen]
    · rw [List.filter_append, i7, c7]
      rfl

/-! ## Claims -/

/-- C1 (evaluation at the failing input): after `New`, `AddService` of the echo
service under `/v1/echo` and `Listen`, the registry `s.mux` does answer the
request `/v1/echo` with body `hello` by `hello`, yet the handler that `Listen`
hands to `http.Server` answers the same request with 404 and the body
`404 page not found`: `Listen` serves a mux of its own that holds the probe
only, never `s.mux`. -/
theorem echo_registered_but_not_served :
    (((New testConfig).1.AddService echoService).server.mux.ServeHTTP
        (ResponseWriter.fresh "POST" none) echoRequest).1
      = { reqMethod := "POST", status := some 200, body := "hello", writeErr := none } ∧
    ((((New testConfig).1.AddService echoService).server.Listen envOK "127.0.0.1:0").srv.map
        (fun srv => (srv.Handler.ServeHTTP (ResponseWriter.fresh "POST" none) echoRequest).1))
      = some { reqMethod := "POST", status := some 404, body := "404 page not found\n",
               writeErr := none } := by
  constructor <;> rfl

/-- The answer of the mux that holds the probe only to a request with path
`/liveness`, by the method of the request and the state of the transport. -/
theorem probe_answer (addr method host body : String) (writeErr : Option String) :
    HTTPServer.serve
      { Addr := addr
        Handler := h2cNewHandler
          (ServeMux.toHandler
            { m := [("/liveness", { h := { ServeHTTP := livenessFunc }, pattern := "/liveness" })]
              es := []
              hosts := false }) }
      { Method := method, Host := host, Path := "/liveness", Body := body } writeErr
    = livenessFunc (ResponseWriter.fresh method writeErr)
        { Method := method, Host := host, Path := "/liveness", Body := body } := rfl

/-- What the probe function does on a new writer. -/
theorem livenessFunc_fresh (method : String) (writeErr : Option String) (r : Request) :
    livenessFunc (ResponseWriter.fresh method writeErr) r =
      if method = "HEAD" then
        ({ reqMethod := method, status := some StatusOK, body := "", writeErr := writeErr }, [])
      else match writeErr with
        | none =>
          ({ reqMethod := method, status := some StatusOK, body := "OK", writeErr := none }, [])
        | some e =>
          ({ reqMethod := method, status := some StatusOK, body := "", writeErr := some e },
           [.logError "failed to write response" e]) := by
  have hb : ("OK" : String) ≠ "" := by decide
  have hs : bodyAllowedForStatus StatusOK = true := by decide
  by_cases hm : method = "HEAD"
  · simp [livenessFunc, ResponseWriter.Write, ResponseWriter.WriteHeader, ResponseWriter.fresh,
      hb, hs, hm]
  · cases writeErr <;>
      simp [livenessFunc, ResponseWriter.Write, ResponseWriter.WriteHeader, ResponseWriter.fresh,
        hb, hs, hm]

/-- C2 (as stated, at a concrete input): after `New` and `Listen`, the server
answers a `HEAD` request to `/liveness` with status 200 and an empty body, not
with the body `OK`: the probe function writes `OK`, and the writer of a `HEAD`
request drops the bytes. -/
theorem head_probe_has_no_body :
    headProbeRequest.Path = "/liveness" ∧
    (((New testConfig).1.Listen envOK "127.0.0.1:0").srv.map
        (fun srv => (srv.serve headProbeRequest none).1))
      = some { reqMethod := "HEAD", status := some 200, body := "", writeErr := none } ∧
    ¬ ((((New testConfig).1.Listen envOK "127.0.0.1:0").srv.map
        (fun srv => (srv.serve headProbeRequest none).1.body)) = some "OK") := by
  refine ⟨rfl, rfl, ?_⟩
  have h : (((New testConfig).1.Listen envOK "127.0.0.1:0").srv.map
      (fun srv => (srv.serve headProbeRequest none).1.body)) = some "" := rfl
  rw [h]
  decide

/-- C2 (amended): for every configuration, every sequence of `AddService`
calls and every address, `Listen` builds an `http.Server` that answers every
request with path `/liveness` with status 200; the body is `OK` when the
method is not `HEAD` and the transport takes the bytes, and empty for `HEAD`;
nothing is logged, except the refusal of the transport to take the bytes of a
request that is not `HEAD`, in which case the status is still 200 and the body
empty. The registry does not enter the answer. -/
theorem liveness_probe_independent_of_registry (env : Env) (cfg : Config)
    (svcs : List Service) (addr : String) (r : Request) (hr : r.Path = "/liveness") :
    ∃ srv, (((New cfg).1.addServices svcs).Listen env addr).srv = some srv ∧
      srv.serve r none
        = ({ reqMethod := r.Method, status := some StatusOK,
             body := if r.Method = "HEAD" then "" else "OK", writeErr := none }, []) ∧
      ∀ e, srv.serve r (some e)
        = ({ reqMethod := r.Method, status := some StatusOK, body := "", writeErr := some e },
           if r.Method = "HEAD" then [] else [.logError "failed to write response" e]) := by
  obtain ⟨h1, h2, -, -⟩ := addServices_free svcs (New cfg).1 rfl
  refine ⟨_, Listen_srv env _ addr h1 (h2.trans rfl), ?_, ?_⟩
  · cases r with
    | mk method host path body =>
      simp only at hr
      subst hr
      rw [probe_answer, livenessFunc_fresh]
      by_cases hm : method = "HEAD" <;> simp [hm]
  · intro e
    cases r with
    | mk method host path body =>
      simp only at hr
      subst hr
      rw [probe_answer, livenessFunc_fresh]
      by_cases hm : method = "HEAD" <;> simp [hm]

/-- C2 (amended), at a concrete input: a service registered under `/liveness`
itself, then `Listen`, then a `GET` probe request. -/
theorem liveness_probe_independent_of_registry_witness :
    probeRequest.Path = "/liveness" ∧
    ∃ srv, (((New testConfig).1.addServices [echoService, shadowService]).Listen envOK
        "127.0.0.1:0").srv = some srv ∧
      srv.serve probeRequest none
        = ({ reqMethod := "GET", status := some StatusOK, body := "OK", writeErr := none },
           []) :=
  match liveness_probe_independent_of_registry envOK testConfig [echoService, shadowService]
      "127.0.0.1:0" probeRequest rfl with
  | ⟨srv, h1, h2, _⟩ => ⟨rfl, srv, h1, h2⟩

/-- C3: on a server whose `isListening` is true (and whose mutex is free when
the call arrives), `Listen` returns a nil error, its whole trace is lock, the
log line `already listening`, unlock; it builds no `http.Server`, starts no
goroutine, does not receive on `shutdownC`, and the server after the call is
the server before it, the mutex released. -/
theorem Listen_already_listening (env : Env) (s : Server) (addr : String)
    (hl : s.isListening = true) (hm : s.locked = false) :
    s.Listen env addr =
      { server := s
        outcome := .returned none
        events := [.lock, .logInfo "already listening" none, .unlock]
        serving := []
        srv := none } := by
  unfold Server.Listen
  rw [Lock_free s hm]
  cases s
  simp_all [Server.Unlock]

/-- C3, at a concrete input: a second `Listen` on a server where a first one
is parked. -/
theorem Listen_already_listening_witness :
    listeningServer.isListening = true ∧ listeningServer.locked = false ∧
    listeningServer.Listen envOK "127.0.0.1:9" =
      { server := listeningServer
        outcome := .returned none
        events := [.lock, .logInfo "already listening" none, .unlock]
        serving := []
        srv := none } :=
  ⟨rfl, rfl, Listen_already_listening envOK listeningServer "127.0.0.1:9" rfl rfl⟩

/-- C4: `New` gives `isListening` false; after any sequence of `AddService`,
`Liveness` and `Listen` calls on the new server, `isListening` is true exactly
when the sequence holds a `Listen`; all the calls together build one
`http.Server` and call `ListenAndServe` once when the sequence holds a
`Listen` (none otherwise), and what the serving goroutines did is what the
goroutine of the first `Listen` did, on its address; on any server whose
`isListening` is true, no call resets the flag, starts a goroutine or builds
an `http.Server`. -/
theorem idle_to_listening_at_most_once (cfg : Config) (env : Env) (ops : List Op) :
    (New cfg).1.isListening = false ∧
    ((New cfg).1.run env ops).1.isListening = (firstListen ops).isSome ∧
    ((New cfg).1.run env ops).2.2 =
      (match firstListen ops with
       | none => []
       | some a => serveGoroutine env a) ∧
    (((New cfg).1.run env ops).2.2.filter Event.isBind).length =
      (if (firstListen ops).isSome then 1 else 0) ∧
    (((New cfg).1.run env ops).2.1.filter Event.isNewServer).length =
      (if (firstListen ops).isSome then 1 else 0) ∧
    ∀ (s : Server) (op : Op), s.isListening = true →
      (s.call env op).server.isListening = true ∧
      (s.call env op).serving = [] ∧
      (s.call env op).srv = none := by
  obtain ⟨-, -, -, h4, h5, h6, -⟩ := run_inv env ops (New cfg).1 rfl rfl
  have hn : (New cfg).1.isListening = false := rfl
  rw [hn] at h4 h5 h6
  simp only [Bool.false_or, Bool.false_eq_true, if_false] at h4 h5 h6
  refine ⟨rfl, h4, h5, ?_, h6, ?_⟩
  · rw [h5]
    cases firstListen ops with
    | none => rfl
    | some a =>
      simp only [serveGoroutine, Option.isSome_some, if_true]
      cases env.listenErr a <;> rfl
  · intro s op hl
    cases op with
    | addService svc =>
      simp only [Server.call, Server.AddService, Server.Lock]
      cases s.locked
      · simp only [Bool.false_eq_true, if_false]
        split <;> simp [Server.Unlock, hl]
      · simp [hl]
    | liveness ctx req => simp [Server.call, hl]
    | listen addr =>
      simp only [Server.call, Server.Listen, Server.Lock]
      cases s.locked <;> simp [Server.Unlock, hl]

/-- C4, at a concrete input: two `Listen` calls around a registration. -/
theorem idle_to_listening_at_most_once_witness :
    (((New testConfig).1.run envOK
        [.listen "127.0.0.1:0", .addService echoService, .listen "127.0.0.1:9"]).2.2.filter
          Event.isBind).length = 1 ∧
    (((New testConfig).1.run envOK
        [.listen "127.0.0.1:0", .addService echoService, .listen "127.0.0.1:9"]).2.2)
      = [.listenAndServe "127.0.0.1:0" none] :=
  ⟨(idle_to_listening_at_most_once testConfig envOK
      [.listen "127.0.0.1:0", .addService echoService, .listen "127.0.0.1:9"]).2.2.2.1,
   (idle_to_listening_at_most_once testConfig envOK
      [.listen "127.0.0.1:0", .addService echoService, .listen "127.0.0.1:9"]).2.2.1⟩

/-- C5 (as stated, at a concrete input): no address can be bound, `Listen` is
called on a new server; the call does not return an error, and the server is
left with `isListening` true although `ListenAndServe` has failed and no
socket is bound. -/
theorem Listen_bind_failure_keeps_listening :
    envInUse.listenErr "127.0.0.1:80" = some "bind: address already in use" ∧
    ¬ (((New testConfig).1.Listen envInUse "127.0.0.1:80").server.isListening = false) ∧
    ¬ (∃ e, ((New testConfig).1.Listen envInUse "127.0.0.1:80").outcome = .returned (some e)) ∧
    ((New testConfig).1.Listen envInUse "127.0.0.1:80").outcome = .recvWait ∧
    ((New testConfig).1.Listen envInUse "127.0.0.1:80").serving =
      [.listenAndServe "127.0.0.1:80" (some "bind: address already in use"),
       .logError "listen and serve failed" "bind: address already in use"] := by
  refine ⟨rfl, ?_, ?_, rfl, rfl⟩
  · decide
  · rintro ⟨e, he⟩
    have h : ((New testConfig).1.Listen envInUse "127.0.0.1:80").outcome = .recvWait := rfl
    rw [h] at he
    cases he

/-- C5 (amended): when binding `addr` fails with `e`, a `Listen` call that
passes the guard leaves `isListening` true; the serving goroutine calls
`ListenAndServe` once, gets `e` and logs it as `listen and serve failed`, and
does nothing else; the call itself builds the `http.Server`, logs `listening`
and starts the goroutine, and never returns `e`: while no shutdown signal is
there it is parked at the receive on `shutdownC`, the server being the one
before the call with `isListening` true; when the signal is there it takes it,
logs `shutting down`, calls `srv.Shutdown` and returns what that call
returns, the server again differing only in `isListening` being true (and in
the channel having given its value). -/
theorem Listen_bind_failure_logged (env : Env) (s : Server) (addr e : String)
    (hm : s.locked = false) (hl : s.isListening = false)
    (he : env.listenErr addr = some e) :
    (s.Listen env addr).server.isListening = true ∧
    (s.Listen env addr).serving =
      [.listenAndServe addr (some e), .logError "listen and serve failed" e] ∧
    (s.shutdownC.recv = none →
      (s.Listen env addr).outcome = .recvWait ∧
      (s.Listen env addr).events =
        [.lock, .unlock, .newHTTPServer addr, .logInfo "listening" (some addr), .go] ∧
      (s.Listen env addr).server = { s with isListening := true }) ∧
    (∀ c, s.shutdownC.recv = some c →
      (s.Listen env addr).outcome = .returned env.shutdownErr ∧
      (s.Listen env addr).events =
        [.lock, .unlock, .newHTTPServer addr, .logInfo "listening" (some addr), .go,
         .recvShutdownC, .logInfo "shutting down" none, .srvShutdown addr] ∧
      (s.Listen env addr).server = { s with isListening := true, shutdownC := c }) := by
  obtain ⟨srv, ha, h1, h2, h3, h4⟩ := Listen_idle env s addr hm hl
  rw [h1, h2, h3, h4]
  cases hr : s.shutdownC.recv with
  | none =>
    rw [awaitShutdown_parked env _ srv (by simpa using hr)]
    simp [serveGoroutine, he]
  | some c =>
    rw [awaitShutdown_signalled env _ srv c (by simpa using hr)]
    simp [serveGoroutine, he, ha]

/-- C5 (amended), at concrete inputs: a new server, on which the call parks,
and a new server whose shutdown signal is there already, on which the call
returns the nil result of `srv.Shutdown`, not the error of the bind. -/
theorem Listen_bind_failure_logged_witness :
    ((New testConfig).1.Listen envInUse "127.0.0.1:80").server.isListening = true ∧
    ((New testConfig).1.Listen envInUse "127.0.0.1:80").serving =
      [.listenAndServe "127.0.0.1:80" (some "bind: address already in use"),
       .logError "listen and serve failed" "bind: address already in use"] ∧
    ((New testConfig).1.Listen envInUse "127.0.0.1:80").outcome = .recvWait ∧
    ((New testConfig).1.signalShutdown.Listen envInUse "127.0.0.1:80").outcome =
      .returned none ∧
    ((New testConfig).1.signalShutdown.Listen envInUse "127.0.0.1:80").events =
      [.lock, .unlock, .newHTTPServer "127.0.0.1:80", .logInfo "listening" (some "127.0.0.1:80"),
       .go, .recvShutdownC, .logInfo "shutting down" none, .srvShutdown "127.0.0.1:80"] ∧
    ((New testConfig).1.signalShutdown.Listen envInUse "127.0.0.1:80").server.isListening
      = true :=
  ⟨(Listen_bind_failure_logged envInUse (New testConfig).1 "127.0.0.1:80"
      "bind: address already in use" rfl rfl rfl).1,
   (Listen_bind_failure_logged envInUse (New testConfig).1 "127.0.0.1:80"
      "bind: address already in use" rfl rfl rfl).2.1,
   ((Listen_bind_failure_logged envInUse (New testConfig).1 "127.0.0.1:80"
      "bind: address already in use" rfl rfl rfl).2.2.1 rfl).1,
   ((Listen_bind_failure_logged envInUse (New testConfig).1.signalShutdown
      "127.0.0.1:80" "bind: address already in use" rfl rfl rfl).2.2.2
        { closed := true, senders := 0 } rfl).1,
   ((Listen_bind_failure_logged envInUse (New testConfig).1.signalShutdown
      "127.0.0.1:80" "bind: address already in use" rfl rfl rfl).2.2.2
        { closed := true, senders := 0 } rfl).2.1,
   (Listen_bind_failure_logged envInUse (New testConfig).1.signalShutdown
      "127.0.0.1:80" "bind: address already in use" rfl rfl rfl).1⟩

/-- C6: when the registry already holds an entry for the pattern that
`svc.CreateHandler` yields (and the mutex is free when the call arrives),
`AddService` panics; the server after the panic is the server before the call:
the registry is untouched, so the earlier handler is neither replaced nor
joined by the new one, and the mutex is released. -/
theorem AddService_duplicate_panics (s : Server) (svc : Service)
    (hm : s.locked = false) (hp : (s.mux.find svc.CreateHandler.1).isSome = true) :
    ∃ msg, s.AddService svc =
      { server := s
        outcome := .panicked msg
        events := [.lock, .unlock]
        serving := []
        srv := none } := by
  have hu : ({ s with locked := true } : Server).Unlock = s := Unlock_Lock s hm
  unfold Server.AddService
  rw [Lock_free s hm]
  simp only [ServeMux.Handle, hu]
  by_cases h1 : svc.CreateHandler.1 = ""
  · exact ⟨"http: invalid pattern", by simp [h1]⟩
  · cases h2 : svc.CreateHandler.2 with
    | none => exact ⟨"http: nil handler", by simp [h1]⟩
    | some h =>
      exact ⟨"http: multiple registrations for " ++ svc.CreateHandler.1, by simp [h1, hp]⟩

/-- C6, at a concrete input: the echo service registered a second time. -/
theorem AddService_duplicate_panics_witness :
    echoServer.locked = false ∧
    (echoServer.mux.find echoService.CreateHandler.1).isSome = true ∧
    ∃ msg, echoServer.AddService echoService =
      { server := echoServer
        outcome := .panicked msg
        events := [.lock, .unlock]
        serving := []
        srv := none } :=
  ⟨rfl, rfl, AddService_duplicate_panics echoServer echoService rfl rfl⟩

/-- C7: in every `Listen` call the calling goroutine holds the mutex neither
where it receives on `shutdownC`, nor where it calls `srv.Shutdown`, nor where
the call returns or parks, and each lock it takes is followed by one unlock
(`lockDiscipline`); when the mutex is free as the call arrives, it is free
again in the server the call leaves behind, whether the call returned or is
parked, and an `AddService` made then takes the lock instead of waiting for
it. -/
theorem Listen_holds_no_lock_while_waiting (env : Env) (s : Server) (addr : String) :
    lockDiscipline false (s.Listen env addr).events = true ∧
    (s.locked = false →
      (s.Listen env addr).server.locked = false ∧
      ∀ svc, ((s.Listen env addr).server.AddService svc).outcome ≠ .lockWait ∧
        ((s.Listen env addr).server.AddService svc).events = [.lock, .unlock]) := by
  have key : s.locked = false →
      lockDiscipline false (s.Listen env addr).events = true ∧
      (s.Listen env addr).server.locked = false := by
    intro hm
    cases hl : s.isListening with
    | true =>
      have h : s.Listen env addr =
          { server := s, outcome := .returned none,
            events := [.lock, .logInfo "already listening" none, .unlock],
            serving := [], srv := none } := by
        unfold Server.Listen
        rw [Lock_free s hm]
        cases s
        simp_all [Server.Unlock]
      rw [h]
      exact ⟨rfl, hm⟩
    | false =>
      obtain ⟨srv, -, h1, -, h3, -⟩ := Listen_idle env s addr hm hl
      rw [h1, h3]
      cases hr : s.shutdownC.recv with
      | none =>
        rw [awaitShutdown_parked env _ srv (by simpa using hr)]
        exact ⟨rfl, hm⟩
      | some c =>
        rw [awaitShutdown_signalled env _ srv c (by simpa using hr)]
        exact ⟨rfl, hm⟩
  constructor
  · cases hm : s.locked with
    | false => exact (key hm).1
    | true =>
      have h : (s.Listen env addr).events = [] := by
        simp [Server.Listen, Server.Lock, hm]
      rw [h]
      rfl
  · intro hm
    refine ⟨(key hm).2, fun svc => ?_⟩
    unfold Server.AddService
    rw [Lock_free _ (key hm).2]
    dsimp only
    split <;> simp

/-- C7, at a concrete input: `Listen` on a new server parks with the mutex
free, and the echo service can then be registered. -/
theorem Listen_holds_no_lock_while_waiting_witness :
    ((New testConfig).1.Listen envOK "127.0.0.1:0").outcome = .recvWait ∧
    lockDiscipline false ((New testConfig).1.Listen envOK "127.0.0.1:0").events = true ∧
    (((New testConfig).1.Listen envOK "127.0.0.1:0").server.AddService echoService).outcome
      ≠ .lockWait :=
  ⟨rfl,
   (Listen_holds_no_lock_while_waiting envOK (New testConfig).1 "127.0.0.1:0").1,
   (((Listen_holds_no_lock_while_waiting envOK (New testConfig).1 "127.0.0.1:0").2 rfl).2
      echoService).1⟩

/-- C8 (as stated, at a concrete input): a `Listen` call is parked on a new
server, the shutdown signal is delivered, and the call goes on from its
receive: it returns, `isShuttingDown` is false and `isListening` is true, both
at the call of `srv.Shutdown` and after the return. -/
theorem shutdown_leaves_flags_untouched :
    ((New testConfig).1.Listen envOK "127.0.0.1:0").outcome = .recvWait ∧
    ((New testConfig).1.Listen envOK "127.0.0.1:0").server.isListening = true ∧
    ((New testConfig).1.Listen envOK "127.0.0.1:0").srv = some listeningSrv ∧
    (listeningServer.signalShutdown.awaitShutdown envOK listeningSrv).outcome = .returned none ∧
    (listeningServer.signalShutdown.awaitShutdown envOK listeningSrv).events =
      [.recvShutdownC, .logInfo "shutting down" none, .srvShutdown "127.0.0.1:0"] ∧
    ¬ ((listeningServer.signalShutdown.awaitShutdown envOK listeningSrv).server.isShuttingDown
        = true) ∧
    ¬ ((listeningServer.signalShutdown.awaitShutdown envOK listeningSrv).server.isListening
        = false) := by
  refine ⟨rfl, rfl, rfl, rfl, rfl, ?_, ?_⟩ <;> decide

/-- C8 (amended): when the receive on `shutdownC` of a `Listen` call succeeds,
the call logs `shutting down`, calls `srv.Shutdown` once and returns what it
returns; the server keeps `isShuttingDown` and `isListening` as they were
while the call was parked, and the mutex and the registry are not touched. -/
theorem shutdown_path_keeps_flags (env : Env) (s : Server) (srv : HTTPServer) (c : Chan)
    (h : s.shutdownC.recv = some c) :
    (s.awaitShutdown env srv).outcome = .returned env.shutdownErr ∧
    (s.awaitShutdown env srv).events =
      [.recvShutdownC, .logInfo "shutting down" none, .srvShutdown srv.Addr] ∧
    (s.awaitShutdown env srv).server.isShuttingDown = s.isShuttingDown ∧
    (s.awaitShutdown env srv).server.isListening = s.isListening ∧
    (s.awaitShutdown env srv).server = { s with shutdownC := c } := by
  rw [awaitShutdown_signalled env s srv c h]
  exact ⟨rfl, rfl, rfl, rfl, rfl⟩

/-- C8 (amended), at a concrete input: the parked call of `listeningServer`
after the signal. -/
theorem shutdown_path_keeps_flags_witness :
    listeningServer.signalShutdown.shutdownC.recv = some { closed := true, senders := 0 } ∧
    (listeningServer.signalShutdown.awaitShutdown envOK listeningSrv).outcome
      = .returned none ∧
    (listeningServer.signalShutdown.awaitShutdown envOK listeningSrv).server.isShuttingDown
      = false ∧
    (listeningServer.signalShutdown.awaitShutdown envOK listeningSrv).server.isListening
      = true :=
  ⟨rfl,
   (shutdown_path_keeps_flags envOK listeningServer.signalShutdown listeningSrv
      { closed := true, senders := 0 } rfl).1,
   (shutdown_path_keeps_flags envOK listeningServer.signalShutdown listeningSrv
      { closed := true, senders := 0 } rfl).2.2.1,
   (shutdown_path_keeps_flags envOK listeningServer.signalShutdown listeningSrv
      { closed := true, senders := 0 } rfl).2.2.2.1⟩

/-- C9: for every server, context and request, `Liveness` returns the response
with `Status` equal to `serving` and a nil error; the result is the same on
every server, and the call leaves the server as it was, takes no lock and
asks nothing of a collaborator. -/
theorem Liveness_serving (env : Env) (s : Server) (ctx : Context) (req : LivenessRequest) :
    s.Liveness ctx req = ({ Status := "serving" }, none) ∧
    (∀ s2 : Server, s2.Liveness ctx req = s.Liveness ctx req) ∧
    (s.call env (.liveness ctx req)).server = s ∧
    (s.call env (.liveness ctx req)).outcome = .returned none ∧
    (s.call env (.liveness ctx req)).events = [] ∧
    (s.call env (.liveness ctx req)).serving = [] :=
  ⟨rfl, fun _ => rfl, rfl, rfl, rfl, rfl⟩

/-- C10: in every server reached from `New` by `AddService`, `Liveness` and
`Listen` calls, `shutdownC` is as `New` made it (open, no sender),
`isShuttingDown` is false and the mutex is free; no call of the sequence has
completed a receive on `shutdownC` or called `srv.Shutdown`; a `Listen` made
on such a server returns nil when `isListening` is true and is parked at the
receive otherwise, without an event of the shutdown path; and a call parked at
the receive, tried again on such a server, is still parked. -/
theorem shutdown_never_signalled (cfg : Config) (env : Env) (ops : List Op) :
    ((New cfg).1.run env ops).1.shutdownC = Chan.make ∧
    ((New cfg).1.run env ops).1.shutdownC.recv = none ∧
    ((New cfg).1.run env ops).1.isShuttingDown = false ∧
    ((New cfg).1.run env ops).1.locked = false ∧
    ((New cfg).1.run env ops).2.1.filter Event.isShutdownPath = [] ∧
    (∀ addr, (((New cfg).1.run env ops).1.Listen env addr).outcome =
        (if ((New cfg).1.run env ops).1.isListening then .returned none else .recvWait) ∧
      (((New cfg).1.run env ops).1.Listen env addr).events.filter Event.isShutdownPath = []) ∧
    ∀ srv, ((New cfg).1.run env ops).1.awaitShutdown env srv =
      { server := ((New cfg).1.run env ops).1, outcome := .recvWait, events := [],
        serving := [], srv := some srv } := by
  obtain ⟨h1, h2, h3, -, -, -, h7⟩ := run_inv env ops (New cfg).1 rfl rfl
  have hr : ((New cfg).1.run env ops).1.shutdownC.recv = none := by rw [h2]; rfl
  refine ⟨h2, hr, h3, h1, h7, fun addr => ?_, fun srv => awaitShutdown_parked env _ srv hr⟩
  generalize ((New cfg).1.run env ops).1 = s at h1 h2 hr
  cases hl : s.isListening with
  | true =>
    have h : s.Listen env addr =
        { server := s, outcome := .returned none,
          events := [.lock, .logInfo "already listening" none, .unlock],
          serving := [], srv := none } := by
      unfold Server.Listen
      rw [Lock_free s h1]
      cases s
      simp_all [Server.Unlock]
    rw [h]
    exact ⟨rfl, rfl⟩
  | false =>
    obtain ⟨srv, -, -, g2, g3, -⟩ := Listen_idle env s addr h1 hl
    rw [g2, g3, awaitShutdown_parked env _ srv (by simpa using hr)]
    exact ⟨rfl, rfl⟩

end Connect
